import Mathlib

/-!
Shallow embedding of `train.py` (DCGAN training script, repository m4ln/pytorch_dcgan).

The script is orchestration glue over a deep-learning framework: the framework's
numerics (gradients, Adam updates, network internals) are abstracted as oracle
functions, while the script's own control flow — dataset selection, label
construction, the per-batch instruction order, periodic reporting, per-epoch
checkpointing, startup side effects — is embedded faithfully, line by line.
-/

/- ### Hyperparameters (train.py lines 30-45) -/

/-- Constant `REAL_LABEL = 1` (train.py line 42); label values are embedded as
integers since only the two constants 0 and 1 ever occur. -/
def REAL_LABEL : Int := 1

/-- Constant `FAKE_LABEL = 0` (train.py line 43). -/
def FAKE_LABEL : Int := 0

/-- Constant `BATCH_SIZE = 128` (train.py line 30). -/
def BATCH_SIZE : Nat := 128

/-- Constant `EPOCH_NUM = 500` (train.py line 32). -/
def EPOCH_NUM : Nat := 500

/-- Constant `Z_DIM = 100` (train.py line 37). -/
def Z_DIM : Nat := 100

/-- Constant `X_DIM = 64` (train.py line 38). -/
def X_DIM : Nat := 64

/-- Constant `G_HIDDEN = X_DIM` (train.py line 39). -/
def G_HIDDEN : Nat := X_DIM

/-- Constant `D_HIDDEN = G_HIDDEN` (train.py line 40). -/
def D_HIDDEN : Nat := G_HIDDEN

/- ### Labels and batching (train.py lines 95, 126-127) -/

/-- Embedding of `torch.full((n,), v)`: a rank-1 tensor of length `n` with every
entry equal to `v` (used at train.py lines 126-127). -/
def torch_full (n : Nat) (v : Int) : List Int := List.replicate n v

/-- Embedding of line 126, `real_label = torch.full((x_real.size(0),), REAL_LABEL,
dtype=torch.float32, device=device)`: the length argument is `x_real.size(0)`, the
number of images actually present in the current batch, not `BATCH_SIZE`. -/
def real_label {α : Type} (x_real : List α) : List Int :=
  torch_full x_real.length REAL_LABEL

/-- Embedding of line 127, `fake_label = torch.full((x_real.size(0),), FAKE_LABEL,
dtype=torch.float32, device=device)`. -/
def fake_label {α : Type} (x_real : List α) : List Int :=
  torch_full x_real.length FAKE_LABEL

/-- The batches one epoch of `DataLoader(dataset, batch_size=B, shuffle=True,
num_workers=4)` yields (train.py line 95): consecutive chunks of size `B` of the
shuffled dataset; `drop_last` defaults to false, so the final chunk may be shorter.
Shuffling is an arbitrary permutation, so theorems quantify over the post-shuffle
list. -/
def dataloaderBatches {α : Type} (B : Nat) (data : List α) : List (List α) :=
  data.toChunks B

/- ### The loop body as an instruction sequence (train.py lines 129-148) -/

/-- The autograd and optimizer instructions the loop body issues, one constructor
per call, in source order:
`zeroGradD` = `netD.zero_grad()` (line 130); `backwardDReal` =
`loss_D_real.backward()` (line 133); `backwardDFake` = `loss_D_fake.backward()`
(line 140); `stepD` = `optimizerD.step()` (line 141); `zeroGradG` =
`netG.zero_grad()` (line 144); `backwardG` = `loss_G.backward()` (line 147);
`stepG` = `optimizerG.step()` (line 148). -/
inductive Op
  | zeroGradD
  | backwardDReal
  | backwardDFake
  | stepD
  | zeroGradG
  | backwardG
  | stepG
  deriving DecidableEq

/-- Mutable training state: each network's parameter vector and its gradient
buffer, abstracted to single values (the script never looks inside them). -/
structure TrainState where
  thetaD : Int
  thetaG : Int
  gradD : Int
  gradG : Int
  deriving DecidableEq

/-- The framework-computed quantities the script delegates, abstracted as an
oracle of pure functions of the current parameters and the current batch data:
`dReal thD x` is the gradient w.r.t. netD's parameters of
`criterion(netD(x_real), real_label)` (lines 131-133);
`dFake thD thG z` is the gradient w.r.t. netD's parameters of
`criterion(netD(x_fake.detach()), fake_label)` where `x_fake = netG(z_noise)`
(lines 136-140) — the `.detach()` at line 138 cuts the graph, so this backward
writes no netG gradient at all;
`gOnD thD thG z` and `gOnG thD thG z` are the gradients w.r.t. netD's resp.
netG's parameters of `criterion(netD(netG(z_noise)), real_label)` (lines 145-147;
no detach here, so `loss_G.backward()` writes both buffers, and the netG gradient
flows through netD, hence depends on netD's current parameters);
`stepD th g` and `stepG th g` are one Adam update of the given parameters from
accumulated gradient `g` (lines 120-121, 141, 148). -/
structure Autograd where
  dReal : Int → Int → Int
  dFake : Int → Int → Int → Int
  gOnD : Int → Int → Int → Int
  gOnG : Int → Int → Int → Int
  stepD : Int → Int → Int
  stepG : Int → Int → Int

/-- Effect of a single instruction on the training state. `backward` calls
accumulate into the gradient buffers (PyTorch `.backward()` adds to `.grad`, it
never overwrites); `zero_grad` resets a buffer to zero; an optimizer step reads
the accumulated buffer of its own network and replaces that network's parameters.
`real` and `z` stand for the current batch's images and its sampled noise. -/
def execOp (A : Autograd) (real z : Int) : Op → TrainState → TrainState
  | Op.zeroGradD, s => ⟨s.thetaD, s.thetaG, 0, s.gradG⟩
  | Op.backwardDReal, s =>
      ⟨s.thetaD, s.thetaG, s.gradD + A.dReal s.thetaD real, s.gradG⟩
  | Op.backwardDFake, s =>
      ⟨s.thetaD, s.thetaG, s.gradD + A.dFake s.thetaD s.thetaG z, s.gradG⟩
  | Op.stepD, s => ⟨A.stepD s.thetaD s.gradD, s.thetaG, s.gradD, s.gradG⟩
  | Op.zeroGradG, s => ⟨s.thetaD, s.thetaG, s.gradD, 0⟩
  | Op.backwardG, s =>
      ⟨s.thetaD, s.thetaG, s.gradD + A.gOnD s.thetaD s.thetaG z,
        s.gradG + A.gOnG s.thetaD s.thetaG z⟩
  | Op.stepG, s => ⟨s.thetaD, A.stepG s.thetaG s.gradG, s.gradD, s.gradG⟩

/-- The loop body's instruction sequence, in the source order of train.py
lines 130-148. -/
def batchProgram : List Op :=
  [Op.zeroGradD, Op.backwardDReal, Op.backwardDFake, Op.stepD,
   Op.zeroGradG, Op.backwardG, Op.stepG]

/-- Sequential execution of an instruction list. -/
def runProg (A : Autograd) (real z : Int) (p : List Op) (s : TrainState) :
    TrainState :=
  p.foldl (fun st o => execOp A real z o st) s

/-- Executing one batch of the training loop (the whole body, lines 129-148). -/
def trainBatch (A : Autograd) (real z : Int) (s : TrainState) : TrainState :=
  runProg A real z batchProgram s

/-- The discriminator phase of the body: everything up to and including
`optimizerD.step()` (lines 130-141). -/
def dPhase : List Op := batchProgram.take 4

/-- One epoch folds `trainBatch` over the epoch's batches (train.py line 124), so
every batch of every epoch runs the same instruction list `batchProgram`. -/
def runEpoch (A : Autograd) (batches : List (Int × Int)) (s : TrainState) :
    TrainState :=
  batches.foldl (fun st rz => trainBatch A rz.1 rz.2 st) s

/-- A family of autograd oracles that differ only in the fake-step discriminator
gradient `dFake` (the parameter `d`); every other component is literally shared.
The components are realizable: `gOnG` returns netD's parameters (the generator
gradient flows through netD), the optimizer steps are plain descent. -/
def mkAutograd (d : Int) : Autograd :=
  ⟨fun _ _ => 0, fun _ _ _ => d, fun _ _ _ => 0, fun thD _ _ => thD,
   fun th g => th - g, fun th g => th - g⟩

/-- An all-zero initial training state, used to instantiate theorems. -/
def cexState : TrainState := ⟨0, 0, 0, 0⟩

/- ### Observable events and output files (train.py lines 47-162) -/

/-- Output file names the script writes, mirroring the format strings at train.py
lines 48, 157, 160, 161, 162: `logTxt` = `log.txt`; `realSamples` =
`real_samples.png` (a single fixed name, no epoch tag); `fakeSamples e` =
`fake_samples_<e>.png`; `netG e` = `netG_<e>.pth`; `netD e` = `netD_<e>.pth`.
Distinct epoch indices render distinct formatted strings, which the constructor
argument mirrors. -/
inductive FName
  | logTxt
  | realSamples
  | fakeSamples (epoch : Nat)
  | netG (epoch : Nat)
  | netD (epoch : Nat)
  deriving DecidableEq

/-- Observable events of the training loop (train.py lines 123-162): `op e i o` is
loop-body instruction `o` of batch `i` of epoch `e`; `logLoss` is the loss print
(line 151); `saveReal` is `vutils.save_image(x_real, 'real_samples.png')`
(line 157), carrying the indices of the batch whose images it writes; `saveFake`
is `vutils.save_image(viz_sample, 'fake_samples_<epoch>.png')` (line 160);
`saveG`/`saveD` are the `torch.save` checkpoint writes (lines 161-162). -/
inductive Ev
  | op (epoch i : Nat) (o : Op)
  | logLoss (epoch i : Nat)
  | saveReal (epoch i : Nat)
  | saveFake (epoch i : Nat)
  | saveG (epoch : Nat)
  | saveD (epoch : Nat)
  deriving DecidableEq

/-- The file a single event writes, if any. `saveReal` always targets the same
constant name; the other writers tag the name with their epoch index. -/
def writesFile : Ev → Option FName
  | Ev.saveReal _ _ => some FName.realSamples
  | Ev.saveFake e _ => some (FName.fakeSamples e)
  | Ev.saveG e => some (FName.netG e)
  | Ev.saveD e => some (FName.netD e)
  | _ => none

/-- Events of batch `i` of epoch `e` (train.py lines 124-160): the seven loop-body
instructions, then — exactly when `i % 100 == 0` (line 150) — the loss print and
the two image saves. -/
def batchTrace (e i : Nat) : List Ev :=
  batchProgram.map (Ev.op e i) ++
    (if i % 100 = 0 then [Ev.logLoss e i, Ev.saveReal e i, Ev.saveFake e i]
     else [])

/-- Events of epoch `e` over `nB` batches (lines 124-162): all batches in order,
then the two checkpoint saves, which are unconditional (no improvement test, no
early stop). -/
def epochTrace (nB e : Nat) : List Ev :=
  (List.range nB).flatMap (batchTrace e) ++ [Ev.saveG e, Ev.saveD e]

/-- Events of the whole run: epochs `0 .. nE-1`, each in full (line 123,
`for epoch in range(EPOCH_NUM)`: the loop always runs the configured epoch
count). -/
def runTrace (nE nB : Nat) : List Ev :=
  (List.range nE).flatMap (epochTrace nB)

/-- Predicate selecting checkpoint-writing events. -/
def isCkpt : Ev → Bool
  | Ev.saveG _ => true
  | Ev.saveD _ => true
  | _ => false

/- ### Startup: dataset selection, assert, network construction (lines 72-111) -/

/-- Which dataset the run trains on (train.py lines 72-92). -/
inductive DatasetKind
  | imageFolder
  | mnist
  deriving DecidableEq

/-- Argument wiring of `Generator(IMAGE_CHANNEL, Z_DIM, G_HIDDEN)` (train.py
line 104); the network internals live in `dcgan.py` and the framework. -/
structure GeneratorNet where
  imageChannel : Nat
  zDim : Nat
  gHidden : Nat
  deriving DecidableEq

/-- Argument wiring of `Discriminator(IMAGE_CHANNEL, D_HIDDEN)` (train.py
line 109). -/
structure DiscriminatorNet where
  imageChannel : Nat
  dHidden : Nat
  deriving DecidableEq

/-- The configuration startup assembles when it succeeds. -/
structure RunConfig where
  kind : DatasetKind
  imageChannel : Nat
  download : Bool
  log : List String
  datasetLen : Nat
  netG : GeneratorNet
  netD : DiscriminatorNet
  deriving DecidableEq

/-- Embedding of train.py lines 72-111: dataset selection, the `assert dataset`
guard, and network construction. `inPathExists` embeds `IN_PATH.exists()`
(line 72); `primaryCount` and `mnistCount` are the sample counts of the two
candidate datasets. When the primary path is missing, the script prints the
substitution message, sets `IMAGE_CHANNEL = 1`, and loads MNIST with
`download=True` (lines 84-87). Python's `assert dataset` (line 94) tests the
truthiness of the dataset object, which for a torchvision dataset (it defines
`__len__` and no `__bool__`) is `len(dataset) != 0`; a failed assert raises
`AssertionError` before the networks are built and before any training step. -/
def startup (inPathExists : Bool) (primaryCount mnistCount : Nat) :
    Except String RunConfig :=
  let imageChannel : Nat := if inPathExists then 3 else 1
  let kind : DatasetKind :=
    if inPathExists then DatasetKind.imageFolder else DatasetKind.mnist
  let download : Bool := if inPathExists then false else true
  let log : List String :=
    if inPathExists then []
    else ["no data available, using MNIST dataset instead"]
  let n : Nat := if inPathExists then primaryCount else mnistCount
  if n = 0 then Except.error "AssertionError"
  else
    Except.ok
      ⟨kind, imageChannel, download, log, n,
        ⟨imageChannel, Z_DIM, G_HIDDEN⟩, ⟨imageChannel, D_HIDDEN⟩⟩

/-- The whole `__main__` behaviour at the event level: startup, then the training
loop over `ceil(datasetLen / BATCH_SIZE)` batches per epoch. A failed assert
short-circuits, so a zero-sample dataset never reaches the training loop. -/
def mainRun (inPathExists : Bool) (primaryCount mnistCount : Nat) :
    Except String (RunConfig × List Ev) :=
  match startup inPathExists primaryCount mnistCount with
  | Except.error e => Except.error e
  | Except.ok cfg =>
      Except.ok
        (cfg, runTrace EPOCH_NUM ((cfg.datasetLen + BATCH_SIZE - 1) / BATCH_SIZE))

/- ### Startup side effects: folder clearing and log redirection (lines 47-51) -/

/-- Modelled from the spec: `utils.clear_folder(OUT_PATH)` (train.py line 49) —
`utils.py` is not under `src/`. Per its name and call site it empties the output
directory: every file a previous run left there is deleted. -/
def clear_folder (_prev : List FName) : List FName := []

/-- Top-level startup events of `__main__` (train.py lines 47-51 before the loop):
`clearOut` = `utils.clear_folder(OUT_PATH)` (line 49); `redirectLog` =
`sys.stdout = utils.StdOut(LOG_FILE)` (line 51); `loop ev` = a training-loop
event. -/
inductive MainEv
  | clearOut
  | redirectLog
  | loop (ev : Ev)
  deriving DecidableEq

/-- The `__main__` event order: the output folder is cleared first, before the log
redirection and before every training-loop event. -/
def mainEvents (nE nB : Nat) : List MainEv :=
  MainEv.clearOut :: MainEv.redirectLog :: (runTrace nE nB).map MainEv.loop

/- ### Log redirection and process exit (spec sections 6 and 9) -/

/-- Modelled from the spec: `utils.StdOut(LOG_FILE)` — `utils.py` is not under
`src/`. Per spec section 6, standard output is redirected so that every printed
line reaches both the console and the run's log file, and an unhandled error's
traceback is printed through the same redirection used for normal output. -/
structure StdOut where
  console : List String
  fileLines : List String

/-- One line written through the redirected stream reaches both sinks. -/
def StdOut.write (s : StdOut) (msg : String) : StdOut :=
  ⟨s.console ++ [msg], s.fileLines ++ [msg]⟩

/-- Writing a sequence of lines through the redirected stream. -/
def StdOut.writeAll (s : StdOut) (msgs : List String) : StdOut :=
  msgs.foldl StdOut.write s

/-- Process-level outcome (spec section 6; train.py has no try/except, so lines
123-162 either run to the end or an exception propagates out of `__main__`).
`err` is `some tb` when an unhandled exception with traceback text `tb`
interrupts the run — the interpreter then exits non-zero — and `none` when all
epochs complete, in which case the script falls off the end and the process
exits 0. Ordinary log lines and the traceback go through the one redirected
sink. -/
def processRun (normalLogs : List String) (err : Option String) : Nat × StdOut :=
  let sink := StdOut.writeAll ⟨[], []⟩ normalLogs
  match err with
  | none => (0, sink)
  | some tb => (1, sink.write tb)

/- ### Theorems -/

/-- C1: for every batch of every epoch, the Discriminator's parameters are
updated exactly once, by the single `optimizerD.step()` placed after both
backward passes, and the update is applied to the sum of the real-batch and
fake-batch loss gradients: `batchProgram` contains one `stepD`, it follows both
discriminator backwards with no optimizer step and no `zero_grad` in between
(so the two gradients accumulate rather than overwrite), and the resulting
parameters are `stepD` of the accumulated sum. The statement is over an
arbitrary state, so it covers every batch of every epoch of `runEpoch`. -/
theorem discriminator_updated_once_with_summed_grads
    (A : Autograd) (real z : Int) (s : TrainState) :
    (trainBatch A real z s).thetaD
        = A.stepD s.thetaD
            (A.dReal s.thetaD real + A.dFake s.thetaD s.thetaG z) ∧
    batchProgram.count Op.stepD = 1 ∧
    batchProgram.indexOf Op.backwardDReal < batchProgram.indexOf Op.stepD ∧
    batchProgram.indexOf Op.backwardDFake < batchProgram.indexOf Op.stepD ∧
    ((batchProgram.take (batchProgram.indexOf Op.stepD)).drop
          (batchProgram.indexOf Op.backwardDReal)).all
        (fun o => o != Op.stepD && o != Op.stepG && o != Op.zeroGradD)
      = true := by
  refine ⟨?_, by decide, by decide, by decide, by decide⟩
  simp [trainBatch, runProg, batchProgram, execOp]

/-- C2 counterexample: two runs of one batch from the same state, under autograd
oracles that agree on every component except the fake-step discriminator
gradient `dFake`, end with different Generator parameters. The fake-step
gradient changes the Discriminator parameters at `optimizerD.step()` (line 141),
and the Generator's loss gradient (line 147) flows through the updated
Discriminator, so the perturbation reaches the Generator indirectly. -/
theorem generator_isolation_cex :
    (mkAutograd 0).dReal = (mkAutograd 1).dReal ∧
    (mkAutograd 0).gOnD = (mkAutograd 1).gOnD ∧
    (mkAutograd 0).gOnG = (mkAutograd 1).gOnG ∧
    (mkAutograd 0).stepD = (mkAutograd 1).stepD ∧
    (mkAutograd 0).stepG = (mkAutograd 1).stepG ∧
    (mkAutograd 0).dFake 0 0 0 ≠ (mkAutograd 1).dFake 0 0 0 ∧
    (trainBatch (mkAutograd 0) 0 0 cexState).thetaG ≠
      (trainBatch (mkAutograd 1) 0 0 cexState).thetaG :=
  ⟨rfl, rfl, rfl, rfl, rfl, by decide, by decide⟩

/-- C2 (amended): for every batch the Generator's parameters are updated exactly
once, by the single `optimizerG.step()`, from the regenerated-fake-vs-real loss
gradient alone; the discriminator-fake sub-step never touches Generator
parameters or gradients (the `detach` blocks gradient flow), and Generator
parameters are unchanged through the whole discriminator phase, identically for
two oracles differing only in the fake-step gradient. The fake-step gradient can
still reach the final Generator parameters, but only through the updated
Discriminator parameters: whenever those coincide, the final Generator
parameters coincide. -/
theorem generator_updated_once_fake_step_blocked
    (A B : Autograd) (real z : Int) (s : TrainState)
    (hdReal : A.dReal = B.dReal) (hgOnD : A.gOnD = B.gOnD)
    (hgOnG : A.gOnG = B.gOnG) (hstepD : A.stepD = B.stepD)
    (hstepG : A.stepG = B.stepG) :
    (execOp A real z Op.backwardDFake s).thetaG = s.thetaG ∧
    (execOp A real z Op.backwardDFake s).gradG = s.gradG ∧
    (runProg A real z dPhase s).thetaG = s.thetaG ∧
    (runProg A real z dPhase s).thetaG = (runProg B real z dPhase s).thetaG ∧
    batchProgram.count Op.stepG = 1 ∧
    (trainBatch A real z s).thetaG
        = A.stepG s.thetaG
            (A.gOnG (runProg A real z dPhase s).thetaD s.thetaG z) ∧
    ((runProg A real z dPhase s).thetaD = (runProg B real z dPhase s).thetaD →
      (trainBatch A real z s).thetaG = (trainBatch B real z s).thetaG) := by
  refine ⟨rfl, rfl, ?_, ?_, by decide, ?_, ?_⟩
  · simp [runProg, dPhase, batchProgram, execOp]
  · simp [runProg, dPhase, batchProgram, execOp]
  · simp [trainBatch, runProg, dPhase, batchProgram, execOp]
  · intro h
    simp only [trainBatch, runProg, dPhase, batchProgram, execOp,
      List.foldl_cons, List.foldl_nil, List.take] at h ⊢
    rw [hstepG, hgOnG, h]

/-- C2 witness: the amended theorem instantiated at a concrete oracle and state;
the single-batch Generator update equals one `stepG` from the generator-loss
gradient taken at the post-step Discriminator parameters. -/
theorem generator_updated_once_fake_step_blocked_witness :
    (trainBatch (mkAutograd 5) 2 3 cexState).thetaG
        = (mkAutograd 5).stepG cexState.thetaG
            ((mkAutograd 5).gOnG (runProg (mkAutograd 5) 2 3 dPhase cexState).thetaD
              cexState.thetaG 3) :=
  (generator_updated_once_fake_step_blocked (mkAutograd 5) (mkAutograd 5)
    2 3 cexState rfl rfl rfl rfl rfl).2.2.2.2.2.1

/-- C3: for every batch the dataloader yields — including the final,
possibly-undersized batch of an epoch — the real-label and fake-label tensors
each have length equal to the number of images actually present in that batch,
because both are built with length `x_real.size(0)`. -/
theorem label_length_matches_batch (data : List Int) (b : List Int)
    (hb : b ∈ dataloaderBatches BATCH_SIZE data) :
    (real_label b).length = b.length ∧ (fake_label b).length = b.length := by
  exact ⟨by simp [real_label, torch_full], by simp [fake_label, torch_full]⟩

set_option maxRecDepth 20000 in
/-- C3 witness: a 130-image dataset under batch size 128 ends with an undersized
2-image batch, and its label tensors have length 2. -/
theorem label_length_matches_batch_witness :
    ((List.range 130).drop 128 ∈
        dataloaderBatches BATCH_SIZE (List.range 130)) ∧
    (real_label ((List.range 130).drop 128)).length
        = ((List.range 130).drop 128).length ∧
    (fake_label ((List.range 130).drop 128)).length
        = ((List.range 130).drop 128).length :=
  ⟨by decide,
   label_length_matches_batch (List.range 130) ((List.range 130).drop 128)
     (by decide)⟩

/-- C4: the scalar used for the real label and the scalar used for the fake
label are the fixed constants `REAL_LABEL` and `FAKE_LABEL`, every entry of
every batch's label tensors equals the respective constant, and the two
constants are distinct, so the real and fake labels are disjoint in every batch
of the run. -/
theorem label_values_distinct_constants (b : List Int) :
    REAL_LABEL ≠ FAKE_LABEL ∧
    (real_label b).all (fun v => v == REAL_LABEL) = true ∧
    (fake_label b).all (fun v => v == FAKE_LABEL) = true ∧
    (real_label b).all
        (fun v => (fake_label b).all (fun w => v != w)) = true := by
  refine ⟨by decide, ?_, ?_, ?_⟩
  · simp [real_label, torch_full, List.all_eq_true]
  · simp [fake_label, torch_full, List.all_eq_true]
  · simp [real_label, fake_label, torch_full, List.all_eq_true, REAL_LABEL,
      FAKE_LABEL]

/-- Helper: no event of a batch is a `netG` checkpoint save. -/
theorem count_saveG_batchTrace (e i a : Nat) :
    (batchTrace e i).count (Ev.saveG a) = 0 := by
  rw [List.count_eq_zero]
  intro h
  unfold batchTrace at h
  rcases List.mem_append.mp h with h1 | h2
  · obtain ⟨o, -, ho⟩ := List.mem_map.mp h1
    cases ho
  · split at h2
    · simp at h2
    · simp at h2

/-- Helper: no event of a batch is a `netD` checkpoint save. -/
theorem count_saveD_batchTrace (e i a : Nat) :
    (batchTrace e i).count (Ev.saveD a) = 0 := by
  rw [List.count_eq_zero]
  intro h
  unfold batchTrace at h
  rcases List.mem_append.mp h with h1 | h2
  · obtain ⟨o, -, ho⟩ := List.mem_map.mp h1
    cases ho
  · split at h2
    · simp at h2
    · simp at h2

/-- Helper: one epoch's trace holds exactly one `netG` checkpoint save, the one
tagged with its own epoch index. -/
theorem count_saveG_epochTrace (nB e a : Nat) :
    (epochTrace nB e).count (Ev.saveG a) = if e = a then 1 else 0 := by
  unfold epochTrace
  rw [List.count_append]
  have h1 : ((List.range nB).flatMap (batchTrace e)).count (Ev.saveG a) = 0 := by
    rw [List.count_eq_zero]
    intro h
    obtain ⟨i, -, hi⟩ := List.mem_flatMap.mp h
    have h0 := count_saveG_batchTrace e i a
    rw [List.count_eq_zero] at h0
    exact h0 hi
  rw [h1]
  by_cases he : e = a
  · subst he; simp
  · simp [List.count_cons, he]

/-- Helper: one epoch's trace holds exactly one `netD` checkpoint save. -/
theorem count_saveD_epochTrace (nB e a : Nat) :
    (epochTrace nB e).count (Ev.saveD a) = if e = a then 1 else 0 := by
  unfold epochTrace
  rw [List.count_append]
  have h1 : ((List.range nB).flatMap (batchTrace e)).count (Ev.saveD a) = 0 := by
    rw [List.count_eq_zero]
    intro h
    obtain ⟨i, -, hi⟩ := List.mem_flatMap.mp h
    have h0 := count_saveD_batchTrace e i a
    rw [List.count_eq_zero] at h0
    exact h0 hi
  rw [h1]
  by_cases he : e = a
  · subst he; simp
  · simp [List.count_cons, he]

/-- Helper: the run trace splits as one epoch after another. -/
theorem runTrace_succ (nE nB : Nat) :
    runTrace (nE + 1) nB = runTrace nE nB ++ epochTrace nB nE := by
  simp [runTrace, List.range_succ]

/-- Helper: the whole run holds exactly one `netG` save for each of its epochs
and none for any other index. -/
theorem count_saveG_runTrace (nE nB a : Nat) :
    (runTrace nE nB).count (Ev.saveG a) = if a < nE then 1 else 0 := by
  induction nE with
  | zero => simp [runTrace]
  | succ n ih =>
      rw [runTrace_succ, List.count_append, ih, count_saveG_epochTrace]
      split_ifs <;> omega

/-- Helper: the whole run holds exactly one `netD` save for each of its epochs
and none for any other index. -/
theorem count_saveD_runTrace (nE nB a : Nat) :
    (runTrace nE nB).count (Ev.saveD a) = if a < nE then 1 else 0 := by
  induction nE with
  | zero => simp [runTrace]
  | succ n ih =>
      rw [runTrace_succ, List.count_append, ih, count_saveD_epochTrace]
      split_ifs <;> omega

/-- Helper: a batch trace holds no checkpoint write at all. -/
theorem countP_isCkpt_batchTrace (e i : Nat) :
    (batchTrace e i).countP isCkpt = 0 := by
  rw [List.countP_eq_zero]
  intro ev hev
  unfold batchTrace at hev
  rcases List.mem_append.mp hev with h1 | h2
  · obtain ⟨o, -, ho⟩ := List.mem_map.mp h1
    subst ho; simp [isCkpt]
  · split at h2
    · rcases List.mem_cons.mp h2 with rfl | h2
      · simp [isCkpt]
      · rcases List.mem_cons.mp h2 with rfl | h2
        · simp [isCkpt]
        · rcases List.mem_cons.mp h2 with rfl | h2
          · simp [isCkpt]
          · simp at h2
    · simp at h2

/-- Helper: an epoch trace holds exactly two checkpoint writes. -/
theorem countP_isCkpt_epochTrace (nB e : Nat) :
    (epochTrace nB e).countP isCkpt = 2 := by
  unfold epochTrace
  rw [List.countP_append]
  have h1 : ((List.range nB).flatMap (batchTrace e)).countP isCkpt = 0 := by
    rw [List.countP_eq_zero]
    intro ev hev
    obtain ⟨i, -, hi⟩ := List.mem_flatMap.mp hev
    have h0 := countP_isCkpt_batchTrace e i
    rw [List.countP_eq_zero] at h0
    exact h0 ev hi
  rw [h1]
  simp [List.countP_cons, isCkpt]

/-- Helper: a full run over `nE` epochs holds exactly `2 * nE` checkpoint
writes: one `netG`/`netD` pair per epoch, no more, no fewer. -/
theorem countP_isCkpt_runTrace (nE nB : Nat) :
    (runTrace nE nB).countP isCkpt = 2 * nE := by
  induction nE with
  | zero => simp [runTrace]
  | succ n ih =>
      rw [runTrace_succ, List.countP_append, ih, countP_isCkpt_epochTrace]
      omega

/-- Helper: occurrence of a real-batch snapshot write inside one batch's trace:
it happens exactly at the reporting points `i % 100 == 0`, and the event's
indices are the current batch's. -/
theorem saveReal_mem_batchTrace_iff (e i a b : Nat) :
    Ev.saveReal e i ∈ batchTrace a b ↔ (a = e ∧ b = i ∧ b % 100 = 0) := by
  unfold batchTrace
  rw [List.mem_append]
  constructor
  · rintro (h | h)
    · obtain ⟨o, -, ho⟩ := List.mem_map.mp h
      cases ho
    · split at h
      · rename_i hc
        simp at h
        exact ⟨h.1.symm, h.2.symm, hc⟩
      · simp at h
  · rintro ⟨ha, hb, hc⟩
    subst ha
    subst hb
    rw [if_pos hc]
    exact Or.inr (by simp)

/-- Helper: occurrence of a fake-samples grid write inside one batch's trace. -/
theorem saveFake_mem_batchTrace_iff (e i a b : Nat) :
    Ev.saveFake e i ∈ batchTrace a b ↔ (a = e ∧ b = i ∧ b % 100 = 0) := by
  unfold batchTrace
  rw [List.mem_append]
  constructor
  · rintro (h | h)
    · obtain ⟨o, -, ho⟩ := List.mem_map.mp h
      cases ho
    · split at h
      · rename_i hc
        simp at h
        exact ⟨h.1.symm, h.2.symm, hc⟩
      · simp at h
  · rintro ⟨ha, hb, hc⟩
    subst ha
    subst hb
    rw [if_pos hc]
    exact Or.inr (by simp)

/-- Helper: occurrence of a real-batch snapshot write inside one epoch's
trace. -/
theorem saveReal_mem_epochTrace_iff (e i nB a : Nat) :
    Ev.saveReal e i ∈ epochTrace nB a ↔ (a = e ∧ i < nB ∧ i % 100 = 0) := by
  unfold epochTrace
  rw [List.mem_append]
  constructor
  · rintro (h | h)
    · obtain ⟨b, hb, hmem⟩ := List.mem_flatMap.mp h
      rw [saveReal_mem_batchTrace_iff] at hmem
      obtain ⟨rfl, rfl, hc⟩ := hmem
      exact ⟨rfl, List.mem_range.mp hb, hc⟩
    · simp at h
  · rintro ⟨ha, hi, hc⟩
    subst ha
    refine Or.inl (List.mem_flatMap.mpr ⟨i, List.mem_range.mpr hi, ?_⟩)
    rw [saveReal_mem_batchTrace_iff]
    exact ⟨rfl, rfl, hc⟩

/-- Helper: occurrence of a fake-samples grid write inside one epoch's trace. -/
theorem saveFake_mem_epochTrace_iff (e i nB a : Nat) :
    Ev.saveFake e i ∈ epochTrace nB a ↔ (a = e ∧ i < nB ∧ i % 100 = 0) := by
  unfold epochTrace
  rw [List.mem_append]
  constructor
  · rintro (h | h)
    · obtain ⟨b, hb, hmem⟩ := List.mem_flatMap.mp h
      rw [saveFake_mem_batchTrace_iff] at hmem
      obtain ⟨rfl, rfl, hc⟩ := hmem
      exact ⟨rfl, List.mem_range.mp hb, hc⟩
    · simp at h
  · rintro ⟨ha, hi, hc⟩
    subst ha
    refine Or.inl (List.mem_flatMap.mpr ⟨i, List.mem_range.mpr hi, ?_⟩)
    rw [saveFake_mem_batchTrace_iff]
    exact ⟨rfl, rfl, hc⟩

/-- Helper: occurrence of a real-batch snapshot write in the whole run. -/
theorem saveReal_mem_runTrace_iff (e i nE nB : Nat) :
    Ev.saveReal e i ∈ runTrace nE nB ↔ (e < nE ∧ i < nB ∧ i % 100 = 0) := by
  unfold runTrace
  rw [List.mem_flatMap]
  constructor
  · rintro ⟨a, ha, hmem⟩
    rw [saveReal_mem_epochTrace_iff] at hmem
    obtain ⟨rfl, hi, hc⟩ := hmem
    exact ⟨List.mem_range.mp ha, hi, hc⟩
  · rintro ⟨he, hi, hc⟩
    refine ⟨e, List.mem_range.mpr he, ?_⟩
    rw [saveReal_mem_epochTrace_iff]
    exact ⟨rfl, hi, hc⟩

/-- Helper: occurrence of a fake-samples grid write in the whole run. -/
theorem saveFake_mem_runTrace_iff (e i nE nB : Nat) :
    Ev.saveFake e i ∈ runTrace nE nB ↔ (e < nE ∧ i < nB ∧ i % 100 = 0) := by
  unfold runTrace
  rw [List.mem_flatMap]
  constructor
  · rintro ⟨a, ha, hmem⟩
    rw [saveFake_mem_epochTrace_iff] at hmem
    obtain ⟨rfl, hi, hc⟩ := hmem
    exact ⟨List.mem_range.mp ha, hi, hc⟩
  · rintro ⟨he, hi, hc⟩
    refine ⟨e, List.mem_range.mpr he, ?_⟩
    rw [saveFake_mem_epochTrace_iff]
    exact ⟨rfl, hi, hc⟩

/-- Helper: the only events that write `fake_samples_<e>.png` are the fake-grid
saves of epoch `e` itself. -/
theorem writesFake_eq (ev : Ev) (e : Nat)
    (h : writesFile ev = some (FName.fakeSamples e)) :
    ∃ i, ev = Ev.saveFake e i := by
  cases ev <;> simp_all [writesFile]

/-- Helper: the only events that write `real_samples.png` are real-batch
snapshot saves. -/
theorem writesReal_eq (ev : Ev)
    (h : writesFile ev = some FName.realSamples) :
    ∃ x y, ev = Ev.saveReal x y := by
  cases ev <;> simp_all [writesFile]

/-- C5: at the end of every epoch `e` of the run, the `netG_<e>.pth` and
`netD_<e>.pth` checkpoint saves each occur exactly once, unconditionally (no
improvement test exists in the loop); no other event ever writes those file
names; and the loop runs the full configured epoch count, producing exactly one
checkpoint pair per epoch, `2 * nE` checkpoint writes in all — in particular
`2 * EPOCH_NUM` for the configured run. -/
theorem checkpoints_every_epoch (nE nB e : Nat) (he : e < nE) :
    (runTrace nE nB).count (Ev.saveG e) = 1 ∧
    (runTrace nE nB).count (Ev.saveD e) = 1 ∧
    (∀ ev, writesFile ev = some (FName.netG e) → ev = Ev.saveG e) ∧
    (∀ ev, writesFile ev = some (FName.netD e) → ev = Ev.saveD e) ∧
    writesFile (Ev.saveG e) = some (FName.netG e) ∧
    writesFile (Ev.saveD e) = some (FName.netD e) ∧
    (runTrace nE nB).countP isCkpt = 2 * nE ∧
    (runTrace EPOCH_NUM nB).countP isCkpt = 2 * EPOCH_NUM := by
  refine ⟨?_, ?_, ?_, ?_, rfl, rfl, countP_isCkpt_runTrace nE nB,
    countP_isCkpt_runTrace EPOCH_NUM nB⟩
  · rw [count_saveG_runTrace, if_pos he]
  · rw [count_saveD_runTrace, if_pos he]
  · intro ev h
    cases ev <;> simp_all [writesFile]
  · intro ev h
    cases ev <;> simp_all [writesFile]

/-- C5 witness: in a 2-epoch, 1-batch run, epoch 1's checkpoint pair is written
exactly once. -/
theorem checkpoints_every_epoch_witness :
    (runTrace 2 1).count (Ev.saveG 1) = 1 ∧
    (runTrace 2 1).count (Ev.saveD 1) = 1 :=
  ⟨(checkpoints_every_epoch 2 1 1 (by decide)).1,
   (checkpoints_every_epoch 2 1 1 (by decide)).2.1⟩

/-- C8: across the whole run, `real_samples.png` is one constant file name —
every real-batch snapshot writes that same name, and such a snapshot happens at
exactly the periodic reporting points `i % 100 == 0` of every epoch, each
carrying the then-current real batch, so the file is overwritten with the
latest real batch at each reporting point. The fake-sample grid of epoch `e`
goes to the per-epoch name `fake_samples_<e>.png`; its writes happen only
during epoch `e` itself (no event of any other epoch `a` targets that name),
so once epoch `e` has been written the file is kept, never overwritten by the
rest of the run. -/
theorem real_overwritten_fake_kept_per_epoch (nE nB e i a : Nat) (ha : a ≠ e) :
    (∀ ev ∈ epochTrace nB a, writesFile ev ≠ some (FName.fakeSamples e)) ∧
    (Ev.saveFake e i ∈ runTrace nE nB ↔ (e < nE ∧ i < nB ∧ i % 100 = 0)) ∧
    (Ev.saveReal e i ∈ runTrace nE nB ↔ (e < nE ∧ i < nB ∧ i % 100 = 0)) ∧
    writesFile (Ev.saveFake e i) = some (FName.fakeSamples e) ∧
    writesFile (Ev.saveReal e i) = some FName.realSamples ∧
    (∀ ev, writesFile ev = some FName.realSamples → ∃ x y, ev = Ev.saveReal x y) := by
  refine ⟨?_, saveFake_mem_runTrace_iff e i nE nB,
    saveReal_mem_runTrace_iff e i nE nB, rfl, rfl, writesReal_eq⟩
  intro ev hev hw
  obtain ⟨j, rfl⟩ := writesFake_eq ev e hw
  rw [saveFake_mem_epochTrace_iff] at hev
  exact ha hev.1

/-- C8 witness: in a 1-epoch, 1-batch run, the fake grid of epoch 0 is written
at the reporting point of batch 0, and no event of a later epoch's trace ever
writes `fake_samples_0.png`. -/
theorem real_overwritten_fake_kept_per_epoch_witness :
    (∀ ev ∈ epochTrace 1 1, writesFile ev ≠ some (FName.fakeSamples 0)) ∧
    (Ev.saveFake 0 0 ∈ runTrace 1 1 ↔ (0 < 1 ∧ 0 < 1 ∧ 0 % 100 = 0)) :=
  ⟨(real_overwritten_fake_kept_per_epoch 1 1 0 0 1 (by decide)).1,
   (real_overwritten_fake_kept_per_epoch 1 1 0 0 1 (by decide)).2.1⟩

/-- C6: when the primary input directory does not exist, startup does not abort
provided the fallback dataset is non-empty; it selects the MNIST fallback with
`download=True`, logs the substitution message, and sets the channel count to 1,
which is the channel count both the Generator and the Discriminator are then
constructed with. -/
theorem mnist_fallback (primaryCount mnistCount : Nat) (hm : mnistCount ≠ 0) :
    ∃ cfg : RunConfig,
      startup false primaryCount mnistCount = Except.ok cfg ∧
      cfg.kind = DatasetKind.mnist ∧
      cfg.imageChannel = 1 ∧
      cfg.download = true ∧
      "no data available, using MNIST dataset instead" ∈ cfg.log ∧
      cfg.netG.imageChannel = 1 ∧
      cfg.netD.imageChannel = 1 := by
  refine ⟨⟨DatasetKind.mnist, 1, true,
      ["no data available, using MNIST dataset instead"], mnistCount,
      ⟨1, Z_DIM, G_HIDDEN⟩, ⟨1, D_HIDDEN⟩⟩, ?_, rfl, rfl, rfl, by simp, rfl, rfl⟩
  simp [startup, hm]

/-- C6 witness: with a missing primary path and a 5-sample fallback, startup
succeeds with the MNIST configuration. -/
theorem mnist_fallback_witness :
    ∃ cfg : RunConfig,
      startup false 0 5 = Except.ok cfg ∧
      cfg.kind = DatasetKind.mnist ∧
      cfg.imageChannel = 1 ∧
      cfg.download = true ∧
      "no data available, using MNIST dataset instead" ∈ cfg.log ∧
      cfg.netG.imageChannel = 1 ∧
      cfg.netD.imageChannel = 1 :=
  mnist_fallback 0 5 (by decide)

/-- C7: when the selected dataset — the primary one if its path exists, MNIST
otherwise — has zero samples, startup aborts with the assertion error, and the
whole run produces no training trace at all: a zero-sample dataset never
reaches the training loop. -/
theorem empty_dataset_aborts (inPathExists : Bool) (primaryCount mnistCount : Nat)
    (h : (if inPathExists then primaryCount else mnistCount) = 0) :
    startup inPathExists primaryCount mnistCount
        = Except.error "AssertionError" ∧
    ∀ cfg tr, mainRun inPathExists primaryCount mnistCount
        ≠ Except.ok (cfg, tr) := by
  have hs : startup inPathExists primaryCount mnistCount
      = Except.error "AssertionError" := by
    unfold startup
    cases inPathExists <;> simp_all
  refine ⟨hs, ?_⟩
  intro cfg tr
  unfold mainRun
  rw [hs]
  simp

/-- C7 witness: a missing primary path with an empty fallback dataset aborts
startup. -/
theorem empty_dataset_aborts_witness :
    startup false 5 0 = Except.error "AssertionError" :=
  (empty_dataset_aborts false 5 0 (by decide)).1

/-- Helper: writing a sequence of lines through the redirected stream appends
them, in order, to the log file's lines. -/
theorem StdOut.writeAll_fileLines (msgs : List String) (s : StdOut) :
    (StdOut.writeAll s msgs).fileLines = s.fileLines ++ msgs := by
  induction msgs generalizing s with
  | nil => simp [StdOut.writeAll]
  | cons x xs ih =>
      simp only [StdOut.writeAll, List.foldl_cons] at ih ⊢
      rw [ih]
      simp [StdOut.write]

/-- Helper: writing a sequence of lines through the redirected stream appends
them, in order, to the console lines. -/
theorem StdOut.writeAll_console (msgs : List String) (s : StdOut) :
    (StdOut.writeAll s msgs).console = s.console ++ msgs := by
  induction msgs generalizing s with
  | nil => simp [StdOut.writeAll]
  | cons x xs ih =>
      simp only [StdOut.writeAll, List.foldl_cons] at ih ⊢
      rw [ih]
      simp [StdOut.write]

/-- C9: under the redirected output stream, an unhandled error makes the
process exit non-zero and its traceback text lands in the run's log file (and
on the console) exactly as the ordinary log lines do, through the same `write`;
completing all epochs exits 0 with the ordinary log lines in the log file. -/
theorem exit_and_traceback_via_log (normalLogs : List String) (tb m : String)
    (hm : m ∈ normalLogs) :
    (processRun normalLogs (some tb)).1 ≠ 0 ∧
    tb ∈ (processRun normalLogs (some tb)).2.fileLines ∧
    tb ∈ (processRun normalLogs (some tb)).2.console ∧
    m ∈ (processRun normalLogs (some tb)).2.fileLines ∧
    (processRun normalLogs none).1 = 0 ∧
    m ∈ (processRun normalLogs none).2.fileLines := by
  refine ⟨by simp [processRun], ?_, ?_, ?_, rfl, ?_⟩
  · simp [processRun, StdOut.write, StdOut.writeAll_fileLines]
  · simp [processRun, StdOut.write, StdOut.writeAll_console]
  · simp [processRun, StdOut.write, StdOut.writeAll_fileLines]
    tauto
  · simp [processRun, StdOut.writeAll_fileLines]
    tauto

/-- C9 witness: with one ordinary log line and a traceback, the error path
exits non-zero and the traceback is in the log file next to the log line. -/
theorem exit_and_traceback_via_log_witness :
    "Traceback (most recent call last)"
        ∈ (processRun ["Epoch 0"] (some "Traceback (most recent call last)")).2.fileLines :=
  (exit_and_traceback_via_log ["Epoch 0"] "Traceback (most recent call last)"
    "Epoch 0" (by simp)).2.1

/-- C10: at startup, before the log redirection and before every training-loop
event, the output directory is cleared: `clear_folder` leaves it empty, so
every file a previous run left there — its per-epoch checkpoints, its sample
images, its log — is deleted, and a new run with the same output path never
sees a previous run's per-epoch checkpoints. -/
theorem out_folder_cleared_first (prev : List FName) (nE nB : Nat) (f : FName)
    (hf : f ∈ prev) :
    clear_folder prev = [] ∧
    f ∉ clear_folder prev ∧
    (mainEvents nE nB).get? 0 = some MainEv.clearOut ∧
    (∀ j ev, (mainEvents nE nB).get? j = some (MainEv.loop ev) → 2 ≤ j) := by
  refine ⟨rfl, by simp [clear_folder], rfl, ?_⟩
  intro j ev h
  match j with
  | 0 => cases h
  | 1 => cases h
  | (n + 2) => omega

/-- C10 witness: a previous run's epoch-3 generator checkpoint does not survive
the startup clearing. -/
theorem out_folder_cleared_first_witness :
    FName.netG 3 ∉ clear_folder [FName.netG 3, FName.netD 3, FName.logTxt] :=
  (out_folder_cleared_first [FName.netG 3, FName.netD 3, FName.logTxt] 1 1
    (FName.netG 3) (by simp)).2.1
